import Mathlib

/-!
Shallow embedding of the CONNECTION-BACKEND delivery-tracking core.

Python floats appearing as JSON coordinate values are modelled as
rationals (`ℚ`); transcendental arithmetic (the haversine formula) is
modelled over the reals (`ℝ`).  Python strings are modelled as `String`
(or `List Char` where character-level filtering matters), Python `None`
as `Option.none`, and the database rows reachable from the handlers as
explicit lists of records.  Each definition is a direct translation of
the correspondingly named function of the source.
-/

namespace Connection

/-! ## GeoMath: `src/app.py` pure helpers -/

/-- Embedding of `validate_coordinates` (src/app.py:66-75): parses both values and
checks latitude ∈ [-90, 90] and longitude ∈ [-180, 180].  A value that
is missing or not numeric is modelled as `none`.  The Python function
returns `(None, None)` on failure, modelled by `Option` on the pair. -/
def validate_coordinates (lat lng : Option ℚ) : Option (ℚ × ℚ) :=
  match lat, lng with
  | some a, some b =>
      if -90 ≤ a ∧ a ≤ 90 ∧ -180 ≤ b ∧ b ≤ 180 then some (a, b) else none
  | _, _ => none

/-- Embedding of `interpolate_points` (src/app.py:78-84): `num_points` points on the
straight segment, point `i` being
`(lat1 + (lat2-lat1)*i/(n-1), lng1 + (lng2-lng1)*i/(n-1))`. -/
def interpolate_points (lat1 lng1 lat2 lng2 : ℚ) (num_points : ℕ) : List (ℚ × ℚ) :=
  (List.range num_points).map fun (i : ℕ) =>
    (lat1 + (lat2 - lat1) * (i : ℚ) / ((num_points : ℚ) - 1),
     lng1 + (lng2 - lng1) * (i : ℚ) / ((num_points : ℚ) - 1))

/-- Embedding of `haversine_meters` (src/app.py:52-63): great-circle distance in
meters, radius 6 371 000, inputs in degrees (converted with
`radians x = x * π / 180`). -/
noncomputable def haversine_meters (lat1 lon1 lat2 lon2 : ℝ) : ℝ :=
  let rlat1 := lat1 * Real.pi / 180
  let rlon1 := lon1 * Real.pi / 180
  let rlat2 := lat2 * Real.pi / 180
  let rlon2 := lon2 * Real.pi / 180
  let dlon := rlon2 - rlon1
  let dlat := rlat2 - rlat1
  let a := Real.sin (dlat / 2) ^ 2 +
    Real.cos rlat1 * Real.cos rlat2 * Real.sin (dlon / 2) ^ 2
  6371000 * (2 * Real.arcsin (Real.sqrt a))

/-! ## Phone normalization: `src/utils.py` -/

/-- The digit stripping `re.sub` of `normalizeRwandaNumber`
(src/utils.py:20): strip every non-digit character. -/
def strippedDigits (phone : List Char) : List Char :=
  phone.filter Char.isDigit

/-- Embedding of `normalizeRwandaNumber` (src/utils.py:4-41), on a `str` argument
modelled as `List Char`.  The falsy check `if not phone` is the
emptiness test; `startswith` is `List.take`-equality. -/
def normalizeRwandaNumber (phone : List Char) : Option (List Char) :=
  if phone = [] then none
  else if (strippedDigits phone).length = 12 ∧
      (strippedDigits phone).take 3 = ['2', '5', '0'] then
    some (strippedDigits phone)
  else if (strippedDigits phone).length = 10 ∧
      (strippedDigits phone).take 2 = ['0', '7'] then
    some (['2', '5', '0'] ++ (strippedDigits phone).drop 1)
  else if (strippedDigits phone).length = 9 ∧
      (strippedDigits phone).take 1 = ['7'] then
    some (['2', '5', '0'] ++ strippedDigits phone)
  else if (strippedDigits phone).length = 12 ∧
      (strippedDigits phone).take 1 = ['+'] then
    if (strippedDigits phone).take 4 = ['+', '2', '5', '0'] then
      some ((strippedDigits phone).drop 1)
    else none
  else
    none

/-! ## Data rows reachable from the handlers (`src/models.py`) -/

/-- The `users` columns read by the SocketIO handlers: primary key `id`
and `role`. -/
structure UserR where
  id : ℕ
  role : String
deriving DecidableEq

/-- The `deliveries` columns read by the handlers: primary key `id`,
public UUID `delivery_id`, owner `driver_id`, `status`, and
`completed_at` (timestamps modelled as natural numbers). -/
structure DeliveryR where
  id : ℕ
  delivery_id : String
  driver_id : ℕ
  status : String
  completed_at : Option ℕ
deriving DecidableEq

/-- Server-side state seen by the SocketIO handlers: the two tables
plus the room-membership relation (room name, socket id).  `join_room`
adds a pair; nothing in `src/app.py`'s handlers removes one. -/
structure HubState where
  users : List UserR
  deliveries : List DeliveryR
  rooms : List (String × ℕ)
deriving DecidableEq

/-- Lookup `User.query.get(uid)`: by primary key. -/
def getUser (st : HubState) (uid : ℕ) : Option UserR :=
  st.users.find? fun u => u.id == uid

/-- Lookup `Delivery.query.get(did)`: by primary key. -/
def getDelivery (st : HubState) (did : ℕ) : Option DeliveryR :=
  st.deliveries.find? fun d => d.id == did

/-- Effect of `join_room(str(delivery_id))`: subscribe socket `sid` to the room
named after the delivery id. -/
def joinRoom (st : HubState) (did : ℕ) (sid : ℕ) : HubState :=
  { st with rooms := (toString did, sid) :: st.rooms }

/-- The sockets currently subscribed to a room: the recipient set of a
flask-socketio `emit(..., room=room)`. -/
def roomMembers (st : HubState) (room : String) : List ℕ :=
  (st.rooms.filter fun p => p.1 == room).map fun p => p.2

/-! ## SocketIO handlers (`src/app.py:261-415`) -/

/-- Embedding of `on_connect` (src/app.py:261-275): accept only when the Flask
session carries a `user_id` that resolves to an existing user. -/
def on_connect (st : HubState) (sess : Option ℕ) : Bool :=
  match sess with
  | none => false
  | some uid => (getUser st uid).isSome

/-- Outcome of `join_delivery`: either an `error` emitted back to the
originator, or success (the handler echoes `join_delivery` to the
caller).  The new `HubState` is returned alongside. -/
inductive JoinOut where
  | err (msg : String)
  | ok (delivery_id : ℕ) (role : String)
deriving DecidableEq

/-- Embedding of `on_join_delivery` (src/app.py:286-332) wrapped, as in the source,
by `authenticated_only_socketio` (src/app.py:87-104).  `sess` is the
session's `user_id`; `dataDid`/`dataRole` are the event payload fields
(`role` defaults to `"receiver"`); Python's falsy test on
`delivery_id` rejects both a missing id and the integer 0. -/
def on_join_delivery (st : HubState) (sid : ℕ) (sess : Option ℕ)
    (dataDid : Option ℕ) (dataRole : Option String) : HubState × JoinOut :=
  match sess with
  | none => (st, .err "Not authenticated")
  | some uid =>
  match getUser st uid with
  | none => (st, .err "Invalid user")
  | some user =>
  let role := dataRole.getD "receiver"
  match dataDid with
  | none => (st, .err "Invalid delivery_id or role")
  | some did =>
  if did = 0 ∨ (role ≠ "driver" ∧ role ≠ "receiver") then
    (st, .err "Invalid delivery_id or role")
  else if role = "driver" then
    if user.role ≠ "driver" then (st, .err "Not a driver")
    else
      match getDelivery st did with
      | none => (st, .err "Delivery not found")
      | some delivery =>
        if delivery.driver_id ≠ user.id then (st, .err "Not your delivery")
        else (joinRoom st did sid, .ok did role)
  else
    match getDelivery st did with
    | none => (st, .err "Delivery not found")
    | some _ => (joinRoom st did sid, .ok did role)

/-- The `speed` sanitization of `on_driver_update` (src/app.py:367-373):
default 0, coerce out-of-range (or unparsable) values to 0. -/
def pySpeed (dataSpeed : Option ℚ) : ℚ :=
  match dataSpeed with
  | none => 0
  | some v => if v < 0 ∨ v > 350 then 0 else v

/-- Outcome of `driver_update`: an `error` back to the originator, or a
broadcast of the payload to `recipients`. -/
inductive DrvOut where
  | err (msg : String)
  | broadcast (recipients : List ℕ) (lat lng speed : ℚ)
deriving DecidableEq

/-- Embedding of `on_driver_update` (src/app.py:335-383), with the
`authenticated_only_socketio` wrapper.  The final emit targets the room
`str(delivery_id)` with `include_self=False`, i.e. every room member
except the sender's own socket. -/
def on_driver_update (st : HubState) (sid : ℕ) (sess : Option ℕ)
    (dataDid : Option ℕ) (dataLat dataLng dataSpeed : Option ℚ) : DrvOut :=
  match sess with
  | none => .err "Not authenticated"
  | some uid =>
  match getUser st uid with
  | none => .err "Invalid user"
  | some user =>
  match dataDid with
  | none => .err "delivery_id required"
  | some did =>
  if did = 0 then .err "delivery_id required"
  else if user.role ≠ "driver" then .err "Not a driver"
  else
    match getDelivery st did with
    | none => .err "not_your_delivery"
    | some delivery =>
      if delivery.driver_id ≠ user.id then .err "not_your_delivery"
      else
        match validate_coordinates dataLat dataLng with
        | none => .err "Invalid coordinates"
        | some (lat, lng) =>
          .broadcast ((roomMembers st (toString did)).filter fun s => s ≠ sid)
            lat lng (pySpeed dataSpeed)

/-- Outcome of `receiver_update`. -/
inductive RcvOut where
  | err (msg : String)
  | broadcast (recipients : List ℕ) (lat lng : ℚ)
deriving DecidableEq

/-- Embedding of `on_receiver_update` (src/app.py:386-415), with the
`authenticated_only_socketio` wrapper.  The final emit targets the room
with flask-socketio's default `include_self=True`: every room member,
the sender's socket included when it joined the room. -/
def on_receiver_update (st : HubState) (_sid : ℕ) (sess : Option ℕ)
    (dataDid : Option ℕ) (dataLat dataLng : Option ℚ) : RcvOut :=
  match sess with
  | none => .err "Not authenticated"
  | some uid =>
  match getUser st uid with
  | none => .err "Invalid user"
  | some _user =>
  match dataDid with
  | none => .err "delivery_id required"
  | some did =>
  if did = 0 then .err "delivery_id required"
  else
    match getDelivery st did with
    | none => .err "Delivery not found"
    | some _delivery =>
      match validate_coordinates dataLat dataLng with
      | none => .err "Invalid coordinates"
      | some (lat, lng) =>
        .broadcast (roomMembers st (toString did)) lat lng

/-! ## Session-end HTTP handlers (`src/driver_routes.py`, `src/receiver_routes.py`) -/

/-- An HTTP response modelled as status code plus the distinguishing
body label (`error` value, or `"success"`). -/
structure HttpResp where
  code : ℕ
  body : String
deriving DecidableEq

/-- Lookup `Delivery.query.filter_by(delivery_id=...).first()`: by the
public UUID column. -/
def findByDeliveryId (dels : List DeliveryR) (didStr : String) : Option DeliveryR :=
  dels.find? fun d => d.delivery_id == didStr

/-- The committed mutation of both end handlers:
`delivery.status = "completed"; delivery.completed_at = now` applied to
the row whose public UUID matches. -/
def completeRow (didStr : String) (now : ℕ) (row : DeliveryR) : DeliveryR :=
  if row.delivery_id == didStr then
    { row with status := "completed", completed_at := some now }
  else row

/-- Embedding of `end_session` (src/driver_routes.py:128-167): driver ends a
delivery.  Requires a session `user_id`, a non-falsy `delivery_id`, an
existing delivery owned by the caller; then unconditionally sets
`status = "completed"` and `completed_at = now` and returns 200.
`now` stands for `datetime.utcnow()`. -/
def end_session (dels : List DeliveryR) (sessUid : Option ℕ)
    (dataDid : Option String) (now : ℕ) : List DeliveryR × HttpResp :=
  match sessUid with
  | none => (dels, ⟨401, "no_user_in_session"⟩)
  | some uid =>
  match dataDid with
  | none => (dels, ⟨400, "delivery_id_required"⟩)
  | some didStr =>
  if didStr = "" then (dels, ⟨400, "delivery_id_required"⟩)
  else
    match findByDeliveryId dels didStr with
    | none => (dels, ⟨404, "delivery_not_found"⟩)
    | some delivery =>
      if delivery.driver_id ≠ uid then (dels, ⟨403, "not_authorized"⟩)
      else (dels.map (completeRow didStr now), ⟨200, "success"⟩)

/-- Embedding of `end_delivery` (src/receiver_routes.py:51-80): same terminal write,
but with no authentication and no ownership check. -/
def end_delivery (dels : List DeliveryR) (dataDid : Option String)
    (now : ℕ) : List DeliveryR × HttpResp :=
  match dataDid with
  | none => (dels, ⟨400, "delivery_id_required"⟩)
  | some didStr =>
  if didStr = "" then (dels, ⟨400, "delivery_id_required"⟩)
  else
    match findByDeliveryId dels didStr with
    | none => (dels, ⟨404, "delivery_not_found"⟩)
    | some _ => (dels.map (completeRow didStr now), ⟨200, "success"⟩)

/-! ## Route estimation (`src/app.py:174-250`, `api_route`) -/

/-- One element of the GraphHopper `paths` array, with the fields the
handler reads: `points.coordinates` (GeoJSON `(lng, lat)` order),
`distance` (meters) and `time` (milliseconds); the latter two absent
when the JSON omits them (`path.get` defaults). -/
structure GHPath where
  coords : List (ℚ × ℚ)
  distance : Option ℚ
  time : Option ℚ

/-- Result of the single guarded call to the external provider:
the three caught exception classes (`requests` timeout, other request
failure, JSON/`KeyError` parse failure) or a decoded `paths` array. -/
inductive ProviderOutcome where
  | timeout
  | netError
  | malformed
  | success (paths : List GHPath)

/-- The provider attempt ended in one of the caught exceptions. -/
def ProviderOutcome.failed : ProviderOutcome → Prop
  | .timeout => True
  | .netError => True
  | .malformed => True
  | .success _ => False

/-- Response of `POST /api/route`: an error status, or the JSON body
`polyline` / `distance_km` / `eta_min` / `via`. -/
inductive RouteResp where
  | fail (err : String) (code : ℕ)
  | ok (polyline : List (ℚ × ℚ)) (distance_km eta_min : ℝ) (via : String)

/-- Embedding of `api_route` (src/app.py:174-250).  `hasKey` is the presence of
`GRAPHHOPPER_KEY` (the provider is attempted only then); `provider` is
what that attempt yields.  Coordinate payload values are `Option ℚ`
(missing / non-numeric = `none`).  The `distance_m is None` guard of
the source (reachable only through a float-math exception) cannot fire
in the real-valued model, where `haversine_meters` is total. -/
noncomputable def api_route (sLat sLng eLat eLng : Option ℚ)
    (hasKey : Bool) (provider : ProviderOutcome) : RouteResp :=
  match validate_coordinates sLat sLng, validate_coordinates eLat eLng with
  | some (s_lat, s_lng), some (e_lat, e_lng) =>
    if s_lat = e_lat ∧ s_lng = e_lng then
      .ok [(s_lat, s_lng)] 0 0 "same_location"
    else
      let polyline := interpolate_points s_lat s_lng e_lat e_lng 10
      let distance_m : ℝ := haversine_meters s_lat s_lng e_lat e_lng
      let distance_km := distance_m / 1000
      let eta_min := distance_km / 30 * 60
      if hasKey then
        match provider with
        | .success (path :: _) =>
          if 2 ≤ path.coords.length then
            let gh_dist : ℝ := match path.distance with
              | some d => (d : ℝ)
              | none => distance_m
            let gh_time_sec : ℝ := ((path.time.getD 0 : ℚ) : ℝ) / 1000
            .ok (path.coords.map fun p => (p.2, p.1)) (gh_dist / 1000)
              (if 0 < gh_time_sec then gh_time_sec / 60 else eta_min) "graphhopper"
          else if path.coords.length = 1 then
            .ok (interpolate_points s_lat s_lng e_lat e_lng 10)
              distance_km eta_min "interpolated"
          else
            .ok polyline distance_km eta_min "estimate"
        | .success [] => .ok polyline distance_km eta_min "estimate"
        | _ => .ok polyline distance_km eta_min "estimate"
      else
        .ok polyline distance_km eta_min "estimate"
  | _, _ => .fail "invalid_coordinates" 400

/-- The spec's `RouteResult.source` enum. -/
inductive Source where
  | Provider
  | Interpolated
  | SameLocation
deriving DecidableEq

/-- Modelled from the spec: the classification of the code's `via`
strings under the spec's three-valued `source` enum — `"graphhopper"`
is the Provider strategy, `"same_location"` the short-circuit, and
both `"estimate"` and `"interpolated"` are fallback results the spec
calls `Interpolated`. -/
def specSource (via : String) : Source :=
  if via = "graphhopper" then .Provider
  else if via = "same_location" then .SameLocation
  else .Interpolated

/-! ## Concrete fixtures used by closed witness/counterexample theorems -/

/-- A concrete hub state: user 7 is a driver owning delivery 1 (public
id `"d1"`, already completed), user 8 is another driver, user 9 a
receiver-role user; sockets 10 and 20 are joined to room `"1"`. -/
def stFix : HubState :=
  ⟨[⟨7, "driver"⟩, ⟨8, "driver"⟩, ⟨9, "receiver"⟩],
   [⟨1, "d1", 7, "completed", some 1⟩],
   [("1", 10), ("1", 20)]⟩

end Connection

namespace Connection

/-! ## Theorems -/

/-- Helper: the haversine distance is non-negative. -/
theorem haversine_meters_nonneg (lat1 lon1 lat2 lon2 : ℝ) :
    0 ≤ haversine_meters lat1 lon1 lat2 lon2 := by
  unfold haversine_meters
  have h1 : (0 : ℝ) ≤ Real.arcsin (Real.sqrt
      (Real.sin ((lat2 * Real.pi / 180 - lat1 * Real.pi / 180) / 2) ^ 2 +
        Real.cos (lat1 * Real.pi / 180) * Real.cos (lat2 * Real.pi / 180) *
          Real.sin ((lon2 * Real.pi / 180 - lon1 * Real.pi / 180) / 2) ^ 2)) :=
    Real.arcsin_nonneg.mpr (Real.sqrt_nonneg _)
  positivity

/-- C8: for all coordinates and every `n ≥ 2`, `interpolate_points`
returns exactly `n` points, point 0 is exactly the start, point `n-1`
is exactly the end, and consecutive points differ by the constant step
`((lat2-lat1)/(n-1), (lng2-lng1)/(n-1))` (evenly spaced by index). -/
theorem interpolate_points_spec (lat1 lng1 lat2 lng2 : ℚ) (n : ℕ) (hn : 2 ≤ n) :
    (interpolate_points lat1 lng1 lat2 lng2 n).length = n ∧
    (interpolate_points lat1 lng1 lat2 lng2 n)[0]? = some (lat1, lng1) ∧
    (interpolate_points lat1 lng1 lat2 lng2 n)[n - 1]? = some (lat2, lng2) ∧
    (∀ i, i + 1 < n →
      ∃ p q, (interpolate_points lat1 lng1 lat2 lng2 n)[i]? = some p ∧
        (interpolate_points lat1 lng1 lat2 lng2 n)[i + 1]? = some q ∧
        q.1 - p.1 = (lat2 - lat1) / ((n : ℚ) - 1) ∧
        q.2 - p.2 = (lng2 - lng1) / ((n : ℚ) - 1)) := by
  have hd : ((n : ℚ) - 1) ≠ 0 := by
    have : (2 : ℚ) ≤ (n : ℚ) := by exact_mod_cast hn
    intro h
    nlinarith
  refine ⟨?_, ?_, ?_, ?_⟩
  · simp [interpolate_points]
  · have h0 : 0 < n := by omega
    simp only [interpolate_points, List.getElem?_map]
    rw [List.getElem?_range h0]
    simp only [Option.map_some', Option.some.injEq, Prod.mk.injEq]
    constructor <;> · push_cast; ring
  · have hlt : n - 1 < n := by omega
    have hcast : ((n - 1 : ℕ) : ℚ) = (n : ℚ) - 1 := by
      have h1 : 1 ≤ n := by omega
      push_cast [h1]
      ring
    simp only [interpolate_points, List.getElem?_map]
    rw [List.getElem?_range hlt]
    simp only [Option.map_some', Option.some.injEq, Prod.mk.injEq]
    rw [hcast]
    constructor <;> · field_simp
  · intro i hi
    have hi1 : i < n := by omega
    refine ⟨(lat1 + (lat2 - lat1) * (i : ℚ) / ((n : ℚ) - 1),
             lng1 + (lng2 - lng1) * (i : ℚ) / ((n : ℚ) - 1)),
            (lat1 + (lat2 - lat1) * ((i : ℚ) + 1) / ((n : ℚ) - 1),
             lng1 + (lng2 - lng1) * ((i : ℚ) + 1) / ((n : ℚ) - 1)),
            ?_, ?_, ?_, ?_⟩
    · simp only [interpolate_points, List.getElem?_map]
      rw [List.getElem?_range hi1]
      simp only [Option.map_some']
    · simp only [interpolate_points, List.getElem?_map]
      rw [List.getElem?_range hi]
      simp only [Option.map_some', Option.some.injEq, Prod.mk.injEq]
      constructor <;> · push_cast; ring
    · field_simp
      ring
    · field_simp
      ring

/-- C8 witness: instantiation at `lat1 = 0, lng1 = 0, lat2 = 1, lng2 = 2,
n = 3`. -/
theorem interpolate_points_spec_witness :
    2 ≤ 3 ∧
    ((interpolate_points 0 0 1 2 3).length = 3 ∧
    (interpolate_points 0 0 1 2 3)[0]? = some (0, 0) ∧
    (interpolate_points 0 0 1 2 3)[3 - 1]? = some (1, 2) ∧
    (∀ i, i + 1 < 3 →
      ∃ p q, (interpolate_points 0 0 1 2 3)[i]? = some p ∧
        (interpolate_points 0 0 1 2 3)[i + 1]? = some q ∧
        q.1 - p.1 = (1 - 0) / ((3 : ℚ) - 1) ∧
        q.2 - p.2 = (2 - 0) / ((3 : ℚ) - 1))) :=
  ⟨by decide, interpolate_points_spec 0 0 1 2 3 (by decide)⟩

/-- C10: `normalizeRwandaNumber` returns `none` or a string of exactly
12 digit characters beginning with `250`; and the digit string obtained
by stripping non-digits can never begin with `'+'`, so the branch
testing for a leading `'+'` is unreachable. -/
theorem normalizeRwandaNumber_shape (phone : List Char) :
    (normalizeRwandaNumber phone = none ∨
      ∃ t, normalizeRwandaNumber phone = some t ∧ t.length = 12 ∧
        (∀ c ∈ t, c.isDigit = true) ∧ t.take 3 = ['2', '5', '0']) ∧
    (strippedDigits phone).take 1 ≠ ['+'] := by
  have hplus : (strippedDigits phone).take 1 ≠ ['+'] := by
    intro h
    have hmem : '+' ∈ (strippedDigits phone).take 1 := by
      rw [h]; exact List.mem_singleton.mpr rfl
    have hmem2 : '+' ∈ strippedDigits phone := List.mem_of_mem_take hmem
    have : ('+' : Char).isDigit = true :=
      (List.mem_filter.mp hmem2).2
    simp at this
  refine ⟨?_, hplus⟩
  by_cases hempty : phone = []
  · left; simp [normalizeRwandaNumber, hempty]
  · have hdig : ∀ c ∈ strippedDigits phone, c.isDigit = true := by
      intro c hc
      exact (List.mem_filter.mp hc).2
    rw [normalizeRwandaNumber, if_neg hempty]
    split_ifs with h1 h2 h3 h4
    · right
      exact ⟨_, rfl, h1.1, hdig, h1.2⟩
    · right
      refine ⟨_, rfl, ?_, ?_, ?_⟩
      · simp [List.length_drop, h2.1]
      · intro c hc
        simp only [List.cons_append, List.nil_append, List.mem_cons] at hc
        rcases hc with h | h | h | h
        · subst h; decide
        · subst h; decide
        · subst h; decide
        · exact hdig c (List.mem_of_mem_drop h)
      · rfl
    · right
      refine ⟨_, rfl, ?_, ?_, ?_⟩
      · simp [h3.1]
      · intro c hc
        simp only [List.cons_append, List.nil_append, List.mem_cons] at hc
        rcases hc with h | h | h | h
        · subst h; decide
        · subst h; decide
        · subst h; decide
        · exact hdig c h
      · rfl
    · exact absurd h4.2 hplus
    · exact absurd h4.2 hplus
    · left; rfl

/-- C2 counterexample: in `stFix`, delivery 1 has status `"completed"`,
yet `join_delivery` with role `receiver` from authenticated user 9
succeeds and subscribes socket 100 to room `"1"` — the handler never
inspects the session status, contradicting the claim that such a join
is rejected. -/
theorem join_completed_accepted_cex :
    on_join_delivery stFix 100 (some 9) (some 1) (some "receiver") =
      ({ stFix with rooms := ("1", 100) :: stFix.rooms }, JoinOut.ok 1 "receiver") := by
  decide

/-- C2 (amended): a `join_delivery` naming an existing session whose
status is Completed or Cancelled is accepted, not rejected: the
receiver join succeeds and subscribes the connection, and so does the
owning driver's join — the handler validates existence and driver
ownership but never the status. -/
theorem join_terminal_status_not_validated (st : HubState) (sid uid did : ℕ)
    (user : UserR) (d : DeliveryR)
    (hu : getUser st uid = some user)
    (hd : getDelivery st did = some d)
    (hdid : did ≠ 0)
    (_hstatus : d.status = "completed" ∨ d.status = "cancelled") :
    on_join_delivery st sid (some uid) (some did) (some "receiver") =
      (joinRoom st did sid, JoinOut.ok did "receiver") ∧
    (user.role = "driver" → d.driver_id = user.id →
      on_join_delivery st sid (some uid) (some did) (some "driver") =
        (joinRoom st did sid, JoinOut.ok did "driver")) := by
  constructor
  · simp [on_join_delivery, hu, hd, hdid]
  · intro hrole hown
    simp [on_join_delivery, hu, hd, hdid, hrole, hown]

/-- C2 witness: the amended theorem applied to `stFix` (completed
delivery 1, receiver-role user 9 on socket 100). -/
theorem join_terminal_status_not_validated_witness :
    getUser stFix 9 = some ⟨9, "receiver"⟩ ∧
    getDelivery stFix 1 = some ⟨1, "d1", 7, "completed", some 1⟩ ∧
    (1 : ℕ) ≠ 0 ∧
    ((⟨1, "d1", 7, "completed", some 1⟩ : DeliveryR).status = "completed" ∨
      (⟨1, "d1", 7, "completed", some 1⟩ : DeliveryR).status = "cancelled") ∧
    (on_join_delivery stFix 100 (some 9) (some 1) (some "receiver") =
        (joinRoom stFix 1 100, JoinOut.ok 1 "receiver") ∧
      ((⟨9, "receiver"⟩ : UserR).role = "driver" →
        (⟨1, "d1", 7, "completed", some 1⟩ : DeliveryR).driver_id =
          (⟨9, "receiver"⟩ : UserR).id →
        on_join_delivery stFix 100 (some 9) (some 1) (some "driver") =
          (joinRoom stFix 1 100, JoinOut.ok 1 "driver"))) :=
  ⟨by decide, by decide, by decide, Or.inl rfl,
    join_terminal_status_not_validated stFix 100 9 1 ⟨9, "receiver"⟩
      ⟨1, "d1", 7, "completed", some 1⟩ (by decide) (by decide) (by decide)
      (Or.inl rfl)⟩

/-- C4 counterexample: an unauthenticated connection (no `user_id` in
the session) is rejected both at `connect` and at `join_delivery` with
role `receiver`, so joining does require an authentication on the
caller, contradicting the claim of no identity or authentication
requirement. -/
theorem join_requires_auth_cex :
    on_join_delivery stFix 100 none (some 1) (some "receiver") =
      (stFix, JoinOut.err "Not authenticated") ∧
    on_connect stFix none = false := by
  decide

/-- C4 (amended): any *authenticated* caller holding the session
identifier may join as receiver — no receiver-specific identity check
is performed (the `user` hypothesis is arbitrary) — but an
unauthenticated request is rejected. -/
theorem receiver_join_no_identity_check (st : HubState) (sid uid did : ℕ)
    (user : UserR) (d : DeliveryR)
    (hu : getUser st uid = some user)
    (hd : getDelivery st did = some d)
    (hdid : did ≠ 0) :
    (on_join_delivery st sid (some uid) (some did) (some "receiver")).2 =
      JoinOut.ok did "receiver" ∧
    on_join_delivery st sid none (some did) (some "receiver") =
      (st, JoinOut.err "Not authenticated") := by
  constructor
  · simp [on_join_delivery, hu, hd, hdid]
  · rfl

/-- C4 witness: driver-role user 8, who has no relation whatsoever to
delivery 1, still joins it as receiver. -/
theorem receiver_join_no_identity_check_witness :
    getUser stFix 8 = some ⟨8, "driver"⟩ ∧
    getDelivery stFix 1 = some ⟨1, "d1", 7, "completed", some 1⟩ ∧
    (1 : ℕ) ≠ 0 ∧
    ((on_join_delivery stFix 100 (some 8) (some 1) (some "receiver")).2 =
        JoinOut.ok 1 "receiver" ∧
      on_join_delivery stFix 100 none (some 1) (some "receiver") =
        (stFix, JoinOut.err "Not authenticated")) :=
  ⟨by decide, by decide, by decide,
    receiver_join_no_identity_check stFix 100 8 1 ⟨8, "driver"⟩
      ⟨1, "d1", 7, "completed", some 1⟩ (by decide) (by decide) (by decide)⟩

/-- C3 counterexample: in `stFix` sockets 10 and 20 are joined to room
`"1"`; an accepted `receiver_update` sent from socket 10 is broadcast
to `[10, 20]` — the sender receives its own update back, because the
handler's emit omits `include_self=False`.  This contradicts the claim
that no accepted update is echoed to its sender. -/
theorem receiver_update_echoes_sender_cex :
    on_receiver_update stFix 10 (some 9) (some 1) (some 0) (some 0) =
      RcvOut.broadcast [10, 20] 0 0 := by
  decide

/-- C3 (amended): an accepted `driver_update` is broadcast to every
*other* connection of the session's room and never to the sender
(`include_self=False`); an accepted `receiver_update` is broadcast to
the *whole* room, the sender's own socket included whenever it is
joined. -/
theorem update_fanout_semantics (st : HubState) (sid uid did : ℕ)
    (user : UserR) (d : DeliveryR) (la ln : Option ℚ) (lat lng : ℚ) (sp : Option ℚ)
    (hu : getUser st uid = some user)
    (hrole : user.role = "driver")
    (hd : getDelivery st did = some d)
    (hown : d.driver_id = user.id)
    (hdid : did ≠ 0)
    (hco : validate_coordinates la ln = some (lat, lng)) :
    (on_driver_update st sid (some uid) (some did) la ln sp =
      DrvOut.broadcast ((roomMembers st (toString did)).filter fun s => s ≠ sid)
        lat lng (pySpeed sp) ∧
      sid ∉ (roomMembers st (toString did)).filter fun s => s ≠ sid) ∧
    (∀ s ∈ roomMembers st (toString did), s ≠ sid →
      s ∈ (roomMembers st (toString did)).filter fun s => s ≠ sid) ∧
    on_receiver_update st sid (some uid) (some did) la ln =
      RcvOut.broadcast (roomMembers st (toString did)) lat lng := by
  refine ⟨⟨?_, ?_⟩, ?_, ?_⟩
  · simp [on_driver_update, hu, hd, hdid, hrole, hown, hco]
  · simp [List.mem_filter]
  · intro s hs hne
    exact List.mem_filter.mpr ⟨hs, by simpa using hne⟩
  · simp [on_receiver_update, hu, hd, hdid, hco]

/-- C3 witness: owner driver 7 on socket 10 updates delivery 1: the
driver broadcast goes to `[20]` only, while a receiver update from the
same socket would reach `[10, 20]`. -/
theorem update_fanout_semantics_witness :
    getUser stFix 7 = some ⟨7, "driver"⟩ ∧
    (⟨7, "driver"⟩ : UserR).role = "driver" ∧
    getDelivery stFix 1 = some ⟨1, "d1", 7, "completed", some 1⟩ ∧
    (⟨1, "d1", 7, "completed", some 1⟩ : DeliveryR).driver_id =
      (⟨7, "driver"⟩ : UserR).id ∧
    (1 : ℕ) ≠ 0 ∧
    validate_coordinates (some 0) (some 0) = some (0, 0) ∧
    ((on_driver_update stFix 10 (some 7) (some 1) (some 0) (some 0) none =
        DrvOut.broadcast ((roomMembers stFix (toString 1)).filter fun s => s ≠ 10)
          0 0 (pySpeed none) ∧
      10 ∉ (roomMembers stFix (toString 1)).filter fun s => s ≠ 10) ∧
    (∀ s ∈ roomMembers stFix (toString 1), s ≠ 10 →
      s ∈ (roomMembers stFix (toString 1)).filter fun s => s ≠ 10) ∧
    on_receiver_update stFix 10 (some 7) (some 1) (some 0) (some 0) =
      RcvOut.broadcast (roomMembers stFix (toString 1)) 0 0) :=
  ⟨by decide, rfl, by decide, rfl, by decide, by decide,
    update_fanout_semantics stFix 10 7 1 ⟨7, "driver"⟩
      ⟨1, "d1", 7, "completed", some 1⟩ (some 0) (some 0) 0 0 none
      (by decide) rfl (by decide) rfl (by decide) (by decide)⟩

/-- C5: a driver who does not own a session is rejected with an
authorization error both when joining with role `driver` (state is
unchanged: no subscription) and when sending `driver_update` (an error
outcome: no broadcast). -/
theorem nonowner_driver_rejected (st : HubState) (sid uid did : ℕ)
    (user : UserR) (d : DeliveryR) (la ln sp : Option ℚ)
    (hu : getUser st uid = some user)
    (hrole : user.role = "driver")
    (hd : getDelivery st did = some d)
    (hown : d.driver_id ≠ user.id)
    (hdid : did ≠ 0) :
    on_join_delivery st sid (some uid) (some did) (some "driver") =
      (st, JoinOut.err "Not your delivery") ∧
    on_driver_update st sid (some uid) (some did) la ln sp =
      DrvOut.err "not_your_delivery" := by
  constructor
  · simp [on_join_delivery, hu, hd, hdid, hrole, hown]
  · simp [on_driver_update, hu, hd, hdid, hrole, hown]

/-- C5 witness: driver 8 does not own delivery 1 (owner is 7): both the
join and the update are rejected. -/
theorem nonowner_driver_rejected_witness :
    getUser stFix 8 = some ⟨8, "driver"⟩ ∧
    (⟨8, "driver"⟩ : UserR).role = "driver" ∧
    getDelivery stFix 1 = some ⟨1, "d1", 7, "completed", some 1⟩ ∧
    (⟨1, "d1", 7, "completed", some 1⟩ : DeliveryR).driver_id ≠
      (⟨8, "driver"⟩ : UserR).id ∧
    (1 : ℕ) ≠ 0 ∧
    (on_join_delivery stFix 100 (some 8) (some 1) (some "driver") =
        (stFix, JoinOut.err "Not your delivery") ∧
      on_driver_update stFix 100 (some 8) (some 1) (some 0) (some 0) none =
        DrvOut.err "not_your_delivery") :=
  ⟨by decide, rfl, by decide, by decide, by decide,
    nonowner_driver_rejected stFix 100 8 1 ⟨8, "driver"⟩
      ⟨1, "d1", 7, "completed", some 1⟩ (some 0) (some 0) none
      (by decide) rfl (by decide) (by decide) (by decide)⟩

/-- Helper: `completeRow` preserves the public UUID, so the
`filter_by(delivery_id=...)` lookup commutes with the mutation. -/
theorem findByDeliveryId_map_completeRow (dels : List DeliveryR)
    (didStr : String) (now : ℕ) :
    findByDeliveryId (dels.map (completeRow didStr now)) didStr =
      (findByDeliveryId dels didStr).map (completeRow didStr now) := by
  unfold findByDeliveryId
  rw [List.find?_map]
  have hpf : ((fun d : DeliveryR => d.delivery_id == didStr) ∘ completeRow didStr now) =
      fun d : DeliveryR => d.delivery_id == didStr := by
    funext row
    by_cases h : (row.delivery_id == didStr) = true <;>
      simp [completeRow, Function.comp, h]
  rw [hpf]

/-- C6 counterexample: a delivery already completed (at time 1) is
ended again by its owner at time 2: the handler returns 200 success,
but the stored row changes (`completed_at` is overwritten), so the
repeated end is *not* a no-op on the session state. -/
theorem end_session_not_noop_cex :
    (end_session [⟨1, "d1", 7, "completed", some 1⟩] (some 7) (some "d1") 2).2 =
      (⟨200, "success"⟩ : HttpResp) ∧
    (end_session [⟨1, "d1", 7, "completed", some 1⟩] (some 7) (some "d1") 2).1 ≠
      [⟨1, "d1", 7, "completed", some 1⟩] := by
  decide

/-- C6 (amended): ending a session twice returns success (200) both
times — never an error — and the second end leaves the status
`"completed"` untouched: the only change it makes to the stored state
is overwriting the `completed_at` timestamp with the new current time.
The same holds for the receiver-side `end_delivery` handler. -/
theorem end_session_idempotent_success (dels : List DeliveryR) (uid : ℕ)
    (didStr : String) (now1 now2 : ℕ) (d : DeliveryR)
    (hfind : findByDeliveryId dels didStr = some d)
    (hown : d.driver_id = uid)
    (hne : didStr ≠ "") :
    (end_session dels (some uid) (some didStr) now1).2 =
      (⟨200, "success"⟩ : HttpResp) ∧
    (end_session (end_session dels (some uid) (some didStr) now1).1
        (some uid) (some didStr) now2).2 = (⟨200, "success"⟩ : HttpResp) ∧
    (end_session (end_session dels (some uid) (some didStr) now1).1
        (some uid) (some didStr) now2).1 =
      ((end_session dels (some uid) (some didStr) now1).1.map fun row =>
        if row.delivery_id == didStr then { row with completed_at := some now2 }
        else row) ∧
    (end_delivery dels (some didStr) now1).2 = (⟨200, "success"⟩ : HttpResp) ∧
    (end_delivery (end_delivery dels (some didStr) now1).1
        (some didStr) now2).2 = (⟨200, "success"⟩ : HttpResp) := by
  have h1 : end_session dels (some uid) (some didStr) now1 =
      (dels.map (completeRow didStr now1), ⟨200, "success"⟩) := by
    simp [end_session, hfind, hne, hown]
  have hfind1 : findByDeliveryId (dels.map (completeRow didStr now1)) didStr =
      some (completeRow didStr now1 d) := by
    rw [findByDeliveryId_map_completeRow, hfind, Option.map_some']
  have hown1 : (completeRow didStr now1 d).driver_id = uid := by
    by_cases h : (d.delivery_id == didStr) = true <;> simp [completeRow, h, hown]
  have h2 : end_session (dels.map (completeRow didStr now1))
      (some uid) (some didStr) now2 =
      ((dels.map (completeRow didStr now1)).map (completeRow didStr now2),
        ⟨200, "success"⟩) := by
    simp [end_session, hfind1, hne, hown1]
  have hmaps : (dels.map (completeRow didStr now1)).map (completeRow didStr now2) =
      (dels.map (completeRow didStr now1)).map fun row =>
        if row.delivery_id == didStr then { row with completed_at := some now2 }
        else row := by
    rw [List.map_map, List.map_map]
    apply List.map_congr_left
    intro row _
    by_cases h : (row.delivery_id == didStr) = true <;>
      simp [completeRow, Function.comp, h]
  refine ⟨by rw [h1], ?_, ?_, ?_, ?_⟩
  · rw [h1]
    simpa using congrArg Prod.snd h2
  · rw [h1]
    simpa [hmaps] using congrArg Prod.fst h2
  · simp [end_delivery, hfind, hne]
  · have h3 : end_delivery dels (some didStr) now1 =
        (dels.map (completeRow didStr now1), ⟨200, "success"⟩) := by
      simp [end_delivery, hfind, hne]
    rw [h3]
    simp [end_delivery, hfind1, hne]

/-- C6 witness: the amended theorem at the completed fixture delivery,
ended at times 2 then 3. -/
theorem end_session_idempotent_success_witness :
    findByDeliveryId [⟨1, "d1", 7, "completed", some 1⟩] "d1" =
      some ⟨1, "d1", 7, "completed", some 1⟩ ∧
    (⟨1, "d1", 7, "completed", some 1⟩ : DeliveryR).driver_id = 7 ∧
    ("d1" : String) ≠ "" ∧
    ((end_session [⟨1, "d1", 7, "completed", some 1⟩] (some 7) (some "d1") 2).2 =
      (⟨200, "success"⟩ : HttpResp) ∧
    (end_session (end_session [⟨1, "d1", 7, "completed", some 1⟩]
        (some 7) (some "d1") 2).1 (some 7) (some "d1") 3).2 =
      (⟨200, "success"⟩ : HttpResp) ∧
    (end_session (end_session [⟨1, "d1", 7, "completed", some 1⟩]
        (some 7) (some "d1") 2).1 (some 7) (some "d1") 3).1 =
      ((end_session [⟨1, "d1", 7, "completed", some 1⟩]
        (some 7) (some "d1") 2).1.map fun row =>
        if row.delivery_id == "d1" then { row with completed_at := some 3 }
        else row) ∧
    (end_delivery [⟨1, "d1", 7, "completed", some 1⟩] (some "d1") 2).2 =
      (⟨200, "success"⟩ : HttpResp) ∧
    (end_delivery (end_delivery [⟨1, "d1", 7, "completed", some 1⟩]
        (some "d1") 2).1 (some "d1") 3).2 = (⟨200, "success"⟩ : HttpResp)) :=
  ⟨by decide, rfl, by decide,
    end_session_idempotent_success [⟨1, "d1", 7, "completed", some 1⟩] 7 "d1" 2 3
      ⟨1, "d1", 7, "completed", some 1⟩ (by decide) rfl (by decide)⟩

/-- C9: the haversine distance from any point to itself is 0, and the
function is symmetric in its two points. -/
theorem haversine_meters_zero_and_symm :
    (∀ lat lon : ℝ, haversine_meters lat lon lat lon = 0) ∧
    (∀ lat1 lon1 lat2 lon2 : ℝ,
      haversine_meters lat1 lon1 lat2 lon2 =
        haversine_meters lat2 lon2 lat1 lon1) := by
  have key : ∀ x y : ℝ, Real.sin ((x - y) / 2) ^ 2 = Real.sin ((y - x) / 2) ^ 2 := by
    intro x y
    rw [show (y - x) / 2 = -((x - y) / 2) by ring, Real.sin_neg, neg_sq]
  constructor
  · intro lat lon
    simp [haversine_meters]
  · intro lat1 lon1 lat2 lon2
    simp only [haversine_meters]
    rw [key (lat2 * Real.pi / 180) (lat1 * Real.pi / 180),
      key (lon2 * Real.pi / 180) (lon1 * Real.pi / 180),
      mul_comm (Real.cos (lat1 * Real.pi / 180)) (Real.cos (lat2 * Real.pi / 180))]

/-- C7: with valid coordinates and `start == end` exactly, the route
endpoint short-circuits: for *every* provider configuration and
outcome it returns the single-point polyline `[start]`, zero distance,
zero ETA, and `via = "same_location"` (the spec's `SameLocation`
source) — neither the provider result nor the interpolation fallback
can influence the response. -/
theorem api_route_same_location (sLat sLng eLat eLng : Option ℚ)
    (s_lat s_lng e_lat e_lng : ℚ)
    (hs : validate_coordinates sLat sLng = some (s_lat, s_lng))
    (he : validate_coordinates eLat eLng = some (e_lat, e_lng))
    (hlat : s_lat = e_lat) (hlng : s_lng = e_lng) :
    ∀ (hasKey : Bool) (provider : ProviderOutcome),
      api_route sLat sLng eLat eLng hasKey provider =
        RouteResp.ok [(s_lat, s_lng)] 0 0 "same_location" ∧
      [(s_lat, s_lng)].length = 1 ∧
      specSource "same_location" = Source.SameLocation := by
  intro hasKey provider
  refine ⟨?_, rfl, by decide⟩
  simp [api_route, hs, he, hlat, hlng]

/-- C7 witness: the spec's example, start = end = (-1.9706, 30.1044),
with a key configured and a provider success pending — the provider is
irrelevant. -/
theorem api_route_same_location_witness :
    validate_coordinates (some (-1.9706)) (some 30.1044) =
      some (-1.9706, 30.1044) ∧
    ((-1.9706 : ℚ) = -1.9706 ∧ (30.1044 : ℚ) = 30.1044) ∧
    (api_route (some (-1.9706)) (some 30.1044) (some (-1.9706)) (some 30.1044)
        true (ProviderOutcome.success []) =
      RouteResp.ok [(-1.9706, 30.1044)] 0 0 "same_location" ∧
    [((-1.9706 : ℚ), (30.1044 : ℚ))].length = 1 ∧
    specSource "same_location" = Source.SameLocation) :=
  ⟨by norm_num [validate_coordinates], ⟨rfl, rfl⟩,
    api_route_same_location (some (-1.9706)) (some 30.1044)
      (some (-1.9706)) (some 30.1044) (-1.9706) 30.1044 (-1.9706) 30.1044
      (by norm_num [validate_coordinates]) (by norm_num [validate_coordinates])
      rfl rfl true (ProviderOutcome.success [])⟩

/-- C1: with valid, distinct coordinates and a configured key, if the
provider call fails (timeout, network failure, or malformed response)
the route endpoint still returns an `ok` result — it cannot raise —
whose `via` is the fallback (`"estimate"`, the spec's `Interpolated`
source) and whose distance and ETA are non-negative. -/
theorem api_route_provider_failure_falls_back (sLat sLng eLat eLng : Option ℚ)
    (s_lat s_lng e_lat e_lng : ℚ) (provider : ProviderOutcome)
    (hs : validate_coordinates sLat sLng = some (s_lat, s_lng))
    (he : validate_coordinates eLat eLng = some (e_lat, e_lng))
    (hne : ¬(s_lat = e_lat ∧ s_lng = e_lng))
    (hfail : provider.failed) :
    ∃ poly dkm eta,
      api_route sLat sLng eLat eLng true provider =
        RouteResp.ok poly dkm eta "estimate" ∧
      specSource "estimate" = Source.Interpolated ∧
      0 ≤ dkm ∧ 0 ≤ eta := by
  have hnn : (0 : ℝ) ≤ haversine_meters s_lat s_lng e_lat e_lng :=
    haversine_meters_nonneg _ _ _ _
  refine ⟨interpolate_points s_lat s_lng e_lat e_lng 10,
    haversine_meters s_lat s_lng e_lat e_lng / 1000,
    haversine_meters s_lat s_lng e_lat e_lng / 1000 / 30 * 60,
    ?_, by decide,
    div_nonneg hnn (by norm_num),
    mul_nonneg (div_nonneg (div_nonneg hnn (by norm_num)) (by norm_num))
      (by norm_num)⟩
  cases provider with
  | timeout => simp [api_route, hs, he, hne]
  | netError => simp [api_route, hs, he, hne]
  | malformed => simp [api_route, hs, he, hne]
  | success paths => exact hfail.elim

/-- C1 witness: the spec's example pair start = (-1.95, 30.05),
end = (-1.99, 30.09) with a provider timeout. -/
theorem api_route_provider_failure_falls_back_witness :
    validate_coordinates (some (-1.95)) (some 30.05) = some (-1.95, 30.05) ∧
    validate_coordinates (some (-1.99)) (some 30.09) = some (-1.99, 30.09) ∧
    ¬((-1.95 : ℚ) = -1.99 ∧ (30.05 : ℚ) = 30.09) ∧
    ProviderOutcome.timeout.failed ∧
    (∃ poly dkm eta,
      api_route (some (-1.95)) (some 30.05) (some (-1.99)) (some 30.09)
          true ProviderOutcome.timeout =
        RouteResp.ok poly dkm eta "estimate" ∧
      specSource "estimate" = Source.Interpolated ∧
      0 ≤ dkm ∧ 0 ≤ eta) :=
  ⟨by norm_num [validate_coordinates], by norm_num [validate_coordinates],
    by norm_num, trivial,
    api_route_provider_failure_falls_back (some (-1.95)) (some 30.05)
      (some (-1.99)) (some 30.09) (-1.95) 30.05 (-1.99) 30.09
      ProviderOutcome.timeout (by norm_num [validate_coordinates])
      (by norm_num [validate_coordinates]) (by norm_num) trivial⟩

end Connection
